import Mathlib

/-!
Verification of the Reddit sentiment-analysis pipeline (`reddit_news.py`).

The script fetches Reddit headlines, scores them with a lexicon analyzer,
assembles a table, writes a CSV backup locally, validates it, and uploads it
to Azure blob storage.  We give a shallow embedding of its pure string
processing (headline cleaning, CSV encoding, validation) on `List Char`,
of the scoring table assembly, and of the fetch and save operations as
explicit state-passing functions, with external failures (network, disk,
Azure) modelled by boolean environment flags.
-/

namespace RedditNews

/-- Text is modelled as its list of characters (Python `str`). -/
abbrev Chars := List Char

/-! ## Sentiment categorization (`_categorize_sentiment`, lines 62-68)

Compound scores are floats in the source; we embed them as rationals, with
the literal `0.2` read as `1/5`. -/

/-- Embedding of `_categorize_sentiment`: `"Positive"` if `compound ≥ 0.2`,
`"Negative"` if `compound ≤ -0.2`, else `"Neutral"`. -/
def _categorize_sentiment (compound_score : ℚ) : String :=
  if compound_score ≥ 1/5 then "Positive"
  else if compound_score ≤ -(1/5) then "Negative"
  else "Neutral"

/-! ## Headline cleaning (`_clean_headline`, lines 70-77) -/

/-- Python `str.replace('"', '""')`: double every double-quote character. -/
def doubleQuotes : Chars → Chars
  | [] => []
  | c :: rest =>
      if c = '"' then '"' :: '"' :: doubleQuotes rest
      else c :: doubleQuotes rest

/-- Python `str.replace(old, new)` for a single-character pattern. -/
def replaceChar (old new : Char) : Chars → Chars
  | [] => []
  | c :: rest =>
      (if c = old then new else c) :: replaceChar old new rest

/-- Whitespace characters stripped by Python `str.strip()` (ASCII range). -/
def isPySpace (c : Char) : Bool :=
  c = ' ' || c = '\t' || c = '\n' || c = '\r' || c = '\x0b' || c = '\x0c'

/-- Python `str.strip()`: drop leading and trailing whitespace. -/
def pyStrip (s : Chars) : Chars :=
  ((s.dropWhile isPySpace).reverse.dropWhile isPySpace).reverse

/-- Embedding of `_clean_headline`: double embedded quotes, replace `\n`
and `\r` by spaces, then strip, in that order. -/
def _clean_headline (text : Chars) : Chars :=
  pyStrip (replaceChar '\r' ' ' (replaceChar '\n' ' ' (doubleQuotes text)))

/-! ## CSV encoding (`csv.writer` with `QUOTE_ALL`, `escapechar='\\'`,
used in `_save_locally`, lines 100-113)

With the default `doublequote=True`, the writer doubles every quote
character in a field and escapes every backslash with a backslash; with
`QUOTE_ALL` every field is wrapped in double quotes, fields are joined by
commas and rows terminated by `\r\n`. -/

/-- Character-level field encoding done by `csv.writer(quoting=QUOTE_ALL,
escapechar=BACKSLASH)`: quotes are doubled, backslashes are escaped. -/
def encodeFieldData : Chars → Chars
  | [] => []
  | c :: rest =>
      if c = '"' then '"' :: '"' :: encodeFieldData rest
      else if c = '\\' then '\\' :: '\\' :: encodeFieldData rest
      else c :: encodeFieldData rest

/-- A written CSV field: encoded data wrapped in double quotes. -/
def encodeField (f : Chars) : Chars :=
  '"' :: (encodeFieldData f ++ ['"'])

/-- A written CSV row (without the line terminator): fields joined by commas. -/
def encodeRow (fields : List Chars) : Chars :=
  List.intercalate [','] (fields.map encodeField)

/-- A generic well-formed `n`-field all-quoted CSV row: some list of `n`
newline-free fields, each quoted with embedded quotes doubled, joined by
commas, yields exactly this line. -/
def isWellFormedQuotedRow (line : Chars) (n : Nat) : Prop :=
  ∃ fields : List Chars, fields.length = n ∧
    (∀ f ∈ fields, '\n' ∉ f ∧ '\r' ∉ f) ∧
    line = List.intercalate [','] (fields.map (fun f => '"' :: (doubleQuotes f ++ ['"'])))

/-! ## CSV validation (`_validate_csv`, lines 83-90) -/

/-- Python `line.count('","')`: number of non-overlapping occurrences of
the three-character separator sequence, scanning left to right. -/
def countSep : Chars → Nat
  | '"' :: ',' :: '"' :: rest => countSep rest + 1
  | _ :: rest => countSep rest
  | [] => 0

/-- Universal-newline translation done by text-mode `open`: `\r\n` and
lone `\r` both become `\n`. -/
def univNewlines : Chars → Chars
  | '\r' :: '\n' :: rest => '\n' :: univNewlines rest
  | '\r' :: rest => '\n' :: univNewlines rest
  | c :: rest => c :: univNewlines rest
  | [] => []

/-- Drop the empty fragment after a final newline, so that iterating the
lines of `"a\nb\n"` yields two lines, as Python file iteration does. -/
def dropTrailingEmpty : List Chars → List Chars
  | [] => []
  | [l] => if l = [] then [] else [l]
  | l :: rest => l :: dropTrailingEmpty rest

/-- The lines seen when iterating a text-mode file with the given raw
content (line terminators excluded; they contain no separator characters
so the count is unaffected). -/
def readLines (content : Chars) : List Chars :=
  dropTrailingEmpty ((univNewlines content).splitOn '\n')

/-- Embedding of `_validate_csv`: every line of the file must contain
exactly 5 occurrences of the separator sequence. -/
def _validate_csv (content : Chars) : Bool :=
  (readLines content).all (fun l => countSep l == 5)

/-! ## The backup file (`_save_locally`, lines 92-115)

A table row at the CSV boundary: the headline plus the textual
representations of the four scores and the label.  The Python `str()`
rendering of floats is abstracted: fields are already text. -/

structure CsvRow where
  headline : Chars
  negative : Chars
  neutral : Chars
  positive : Chars
  compound : Chars
  label : Chars
deriving DecidableEq, Repr

/-- The six cells of a row, in the order `_save_locally` writes them. -/
def CsvRow.fields (r : CsvRow) : List Chars :=
  [r.headline, r.negative, r.neutral, r.positive, r.compound, r.label]

/-- The header row written by `_save_locally`. -/
def headerFields : List Chars :=
  [String.data "headline", String.data "negative", String.data "neutral",
   String.data "positive", String.data "compound", String.data "label"]

/-- In-place mutation `df['headline'] = df['headline'].apply(_clean_headline)`
performed by `_save_locally` before writing. -/
def cleanDf (df : List CsvRow) : List CsvRow :=
  df.map (fun r => { r with headline := _clean_headline r.headline })

/-- The raw bytes `_save_locally` writes: header row then one row per
record, each terminated by `\r\n` (the `csv.writer` default). -/
def fileContent (df : List CsvRow) : Chars :=
  ((headerFields :: df.map CsvRow.fields).map
    (fun fs => encodeRow fs ++ ['\r', '\n'])).flatten

/-! ## Sentiment scoring table (`analyze_sentiment`, lines 47-60, and the
main-block post-processing, lines 158-159)

`pandas` cells are either a value or missing (`NaN`); a `DataFrame` is a
column-name list plus rows of cells. -/

inductive Cell where
  | na : Cell
  | str : Chars → Cell
  | num : ℚ → Cell
deriving DecidableEq, Repr

structure DataFrame where
  columns : List String
  rows : List (List Cell)
deriving DecidableEq, Repr

/-- The score 4-tuple returned by `sia.polarity_scores` for one headline. -/
structure PolScores where
  neg : ℚ
  neu : ℚ
  pos : ℚ
  compound : ℚ

/-- The record `analyze_sentiment` appends for one headline: the dict keys
fix the column order headline, negative, neutral, positive, compound, label. -/
def recordRow (sia : Chars → PolScores) (headline : Chars) : List Cell :=
  [Cell.str headline,
   Cell.num (sia headline).neg,
   Cell.num (sia headline).neu,
   Cell.num (sia headline).pos,
   Cell.num (sia headline).compound,
   Cell.str (String.data (_categorize_sentiment (sia headline).compound))]

/-- Embedding of `analyze_sentiment`: one record per headline, assembled
into a `DataFrame` whose column order is the dict key order.  The analyzer
is passed as a pure function: each headline is scored independently with
no state shared between calls. -/
def analyze_sentiment (sia : Chars → PolScores) (headlines : List Chars) : DataFrame :=
  ⟨["headline", "negative", "neutral", "positive", "compound", "label"],
   headlines.map (recordRow sia)⟩

/-- The `required_columns` list of the main block (line 158). -/
def required_columns : List String :=
  ["headline", "negative", "neutral", "positive", "compound", "label"]

/-- Index of a column name in a column list (pandas label lookup). -/
def colIdx : List String → String → Nat
  | [], _ => 0
  | c :: rest, name => if c = name then 0 else colIdx rest name + 1

/-- Column selection `df[names]`: reindex every row to the given names. -/
def selectColumns (df : DataFrame) (names : List String) : DataFrame :=
  ⟨names, df.rows.map (fun r => names.map (fun n => r.getD (colIdx df.columns n) Cell.na))⟩

/-- A row contains a missing value. -/
def rowHasNA (r : List Cell) : Bool :=
  r.any (· == Cell.na)

/-- Embedding of `DataFrame.dropna()`: drop every row containing a
missing value. -/
def dropna (df : DataFrame) : DataFrame :=
  ⟨df.columns, df.rows.filter (fun r => !rowHasNA r)⟩

/-- The table the main block passes to the sink:
`analyze_sentiment(headlines)[required_columns].dropna()` (lines 155-159). -/
def mainFrame (sia : Chars → PolScores) (headlines : List Chars) : DataFrame :=
  dropna (selectColumns (analyze_sentiment sia headlines) required_columns)

/-! ## Headline fetching (`fetch_headlines`, lines 35-45)

The paginated Reddit listing is modelled as a stream of events: a
submission with a title, or a transport/authentication error raised by the
client.  The Python `set` is modelled as a duplicate-free list; its
iteration order is unspecified, realised here as insertion order. -/

inductive FetchEvent where
  | title : Chars → FetchEvent
  | err : FetchEvent
deriving DecidableEq, Repr

/-- An event is an error. -/
def FetchEvent.isErr : FetchEvent → Bool
  | .err => true
  | .title _ => false

/-- Python `set.add`: insert unless already present. -/
def insertIfAbsent (seen : List Chars) (t : Chars) : List Chars :=
  if t ∈ seen then seen else seen ++ [t]

/-- The `for submission in ...` loop: accumulate titles into the set,
aborting with `none` when the client raises. -/
def fetchLoop (seen : List Chars) : List FetchEvent → Option (List Chars)
  | [] => some seen
  | .err :: _ => none
  | .title t :: rest => fetchLoop (insertIfAbsent seen t) rest

/-- Embedding of `fetch_headlines`: the deduplicated titles, or — when any
exception was raised — a printed diagnostic (second component `true`) and
an empty list. -/
def fetch_headlines (stream : List FetchEvent) : List Chars × Bool :=
  match fetchLoop [] stream with
  | some headlines => (headlines, false)
  | none => ([], true)

/-! ## Persistence sink (`_generate_filename`, `_save_locally`,
`save_to_blob`, lines 79-145)

External failure points (disk write, Azure connection, container creation,
blob upload) are boolean environment flags: `false` means that step raises
an exception.  The world state tracks the local backup file, the Azure
container, the stored blob, and how many upload calls were attempted. -/

structure SaveEnv where
  writeOk : Bool
  connOk : Bool
  createOk : Bool
  uploadOk : Bool
deriving DecidableEq, Repr

structure BlobState where
  localFile : Option Chars
  containerExists : Bool
  blob : Option (String × Chars)
  uploadAttempts : Nat
deriving DecidableEq, Repr

/-- Embedding of `_generate_filename`. -/
def _generate_filename : String := "reddit_news.csv"

/-- The constant backup directory set in `__init__` (line 32). -/
def local_backup_dir : String := "reddit_data_backups"

/-- The path `_save_locally` writes to: `os.path.join(dir, filename)`. -/
def localPath : String := local_backup_dir ++ "/" ++ _generate_filename

/-- Exceptions that can cross the `try` block of `save_to_blob`. -/
inductive PyErr where
  | ioError : PyErr
  | valueError : PyErr
  | azureError : PyErr
deriving DecidableEq, Repr

/-- The body of the `try` block of `save_to_blob` (lines 122-141):
clean (mutating the caller's table), write, validate, connect, ensure the
container, upload.  Returns the state and the mutated table at the point
the exception was raised, or the final state on success. -/
def trySave (env : SaveEnv) (st : BlobState) (df : List CsvRow) :
    Except (PyErr × BlobState × List CsvRow) (BlobState × List CsvRow) :=
  let dfClean := cleanDf df
  if env.writeOk = false then
    .error (PyErr.ioError, st, dfClean)
  else
    let content := fileContent dfClean
    let st1 : BlobState := { st with localFile := some content }
    if _validate_csv content = false then
      .error (PyErr.valueError, st1, dfClean)
    else if env.connOk = false then
      .error (PyErr.azureError, st1, dfClean)
    else if st1.containerExists = false ∧ env.createOk = false then
      .error (PyErr.azureError, st1, dfClean)
    else
      let st2 : BlobState := { st1 with containerExists := true }
      let st3 : BlobState := { st2 with uploadAttempts := st2.uploadAttempts + 1 }
      if env.uploadOk = false then
        .error (PyErr.azureError, st3, dfClean)
      else
        .ok ({ st3 with blob := some (_generate_filename, content) }, dfClean)

/-- Embedding of `save_to_blob`: the `try` body with every exception
caught and converted to the boolean `false`. -/
def save_to_blob (env : SaveEnv) (st : BlobState) (df : List CsvRow) :
    Bool × BlobState × List CsvRow :=
  match trySave env st df with
  | .ok (stFinal, dfFinal) => (true, stFinal, dfFinal)
  | .error (_, stFinal, dfFinal) => (false, stFinal, dfFinal)

/-! ## Concrete instances used in examples and witnesses -/

/-- The raw headline of the spec's CSV round-trip test: an embedded quoted
word followed by a literal newline. -/
def exHeadline : Chars := String.data "He said \"hi\"\nthere"

/-- A record carrying the round-trip example headline. -/
def exRow : CsvRow :=
  ⟨exHeadline, String.data "0.0", String.data "1.0", String.data "0.0",
   String.data "0.0", String.data "Neutral"⟩

/-- A headline that legitimately contains a quote, a comma and a quote, so
that its cleaned form contains the separator sequence. -/
def trickyHeadline : Chars := String.data "a\",\"b"

/-- A record carrying the tricky headline. -/
def trickyRow : CsvRow :=
  ⟨trickyHeadline, String.data "0.0", String.data "1.0", String.data "0.0",
   String.data "0.0", String.data "Neutral"⟩

/-- The CSV line the writer produces for the tricky record. -/
def trickyLine : Chars :=
  encodeRow (CsvRow.fields { trickyRow with headline := _clean_headline trickyRow.headline })

/-- An environment in which every external step succeeds. -/
def envAll : SaveEnv := ⟨true, true, true, true⟩

/-- An initial world state with no local file, no container and no blob. -/
def stInit : BlobState := ⟨none, false, none, 0⟩

/-- A world state holding stale artifacts from a previous run. -/
def stJunk : BlobState :=
  ⟨some (String.data "old"), true, some ("reddit_news.csv", String.data "old"), 3⟩

/-- All steps of the save sequence succeed: write, validation, connection,
container existence or creation, upload. -/
def allStepsOk (env : SaveEnv) (st : BlobState) (df : List CsvRow) : Prop :=
  env.writeOk = true ∧ _validate_csv (fileContent (cleanDf df)) = true ∧
  env.connOk = true ∧ (st.containerExists = true ∨ env.createOk = true) ∧
  env.uploadOk = true

/-! ## Theorems -/

/-- C1: the categorization function returns "Positive" iff the compound
score is at least 0.2, "Negative" iff it is at most -0.2, "Neutral"
otherwise, and at the boundary values 0.2 and -0.2 it returns "Positive"
and "Negative" respectively. -/
theorem categorize_sentiment_spec :
    (∀ c : ℚ, (_categorize_sentiment c = "Positive" ↔ 1/5 ≤ c) ∧
      (_categorize_sentiment c = "Negative" ↔ c ≤ -(1/5)) ∧
      (_categorize_sentiment c = "Neutral" ↔ -(1/5) < c ∧ c < 1/5)) ∧
    _categorize_sentiment (1/5) = "Positive" ∧
    _categorize_sentiment (-(1/5)) = "Negative" := by
  refine ⟨fun c => ?_, by norm_num [_categorize_sentiment], by norm_num [_categorize_sentiment]⟩
  unfold _categorize_sentiment
  split_ifs with h1 h2
  · exact ⟨⟨fun _ => h1, fun _ => rfl⟩,
      ⟨fun hs => absurd hs (by decide), fun hc => absurd (le_trans h1 hc) (by norm_num)⟩,
      ⟨fun hs => absurd hs (by decide), fun hc => absurd h1 (not_le.mpr hc.2)⟩⟩
  · exact ⟨⟨fun hs => absurd hs (by decide), fun hc => absurd hc h1⟩,
      ⟨fun _ => h2, fun _ => rfl⟩,
      ⟨fun hs => absurd hs (by decide), fun hc => absurd h2 (not_le.mpr hc.1)⟩⟩
  · exact ⟨⟨fun hs => absurd hs (by decide), fun hc => absurd hc h1⟩,
      ⟨fun hs => absurd hs (by decide), fun hc => absurd hc h2⟩,
      ⟨fun _ => ⟨not_le.mp h2, not_le.mp h1⟩, fun _ => rfl⟩⟩

/-- C3: the cleaning rule maps the example headline with an embedded
quoted word and a newline to the expected escaped, newline-free text, and
the CSV line written for a record with that cleaned headline contains
exactly 5 separator sequences, so the written file passes validation. -/
theorem clean_roundtrip_example :
    _clean_headline exHeadline = String.data "He said \"\"hi\"\" there" ∧
    countSep (encodeRow (CsvRow.fields
      { exRow with headline := _clean_headline exRow.headline })) = 5 ∧
    _validate_csv (fileContent (cleanDf [exRow])) = true := by
  decide

/-- C4: the cleaned form of the tricky headline legitimately contains the
separator sequence; the row the writer produces for it is a well-formed
6-field all-quoted CSV row, yet the validator counts more than 5
separators in it and rejects the written file. -/
theorem validation_falsely_rejects :
    0 < countSep (_clean_headline trickyHeadline) ∧
    isWellFormedQuotedRow trickyLine 6 ∧
    5 < countSep trickyLine ∧
    _validate_csv (fileContent (cleanDf [trickyRow])) = false := by
  refine ⟨by decide, ?_, by decide, by decide⟩
  exact ⟨[_clean_headline trickyHeadline, String.data "0.0", String.data "1.0",
          String.data "0.0", String.data "0.0", String.data "Neutral"],
    by decide, by decide, by decide⟩

/-- Helper: if any event of the stream is an error, the fetch loop aborts. -/
theorem fetchLoop_of_err (stream : List FetchEvent)
    (h : stream.any FetchEvent.isErr = true) :
    ∀ seen, fetchLoop seen stream = none := by
  induction stream with
  | nil => simp at h
  | cons e rest ih =>
    intro seen
    cases e with
    | err => rfl
    | title s =>
      simp only [List.any_cons, FetchEvent.isErr, Bool.false_or] at h
      exact ih h _

/-- C6: when any transport or authentication error is raised during the
fetch, the operation prints a diagnostic (second component) and returns
the empty list — the same value a genuinely empty listing produces, so
the caller cannot distinguish the two. -/
theorem fetch_error_yields_empty (stream : List FetchEvent)
    (h : stream.any FetchEvent.isErr = true) :
    fetch_headlines stream = ([], true) ∧
    (fetch_headlines stream).1 = (fetch_headlines []).1 := by
  have hnone : fetch_headlines stream = ([], true) := by
    unfold fetch_headlines
    rw [fetchLoop_of_err stream h []]
  exact ⟨hnone, by rw [hnone]; rfl⟩

/-- Witness for C6 at the one-event error stream. -/
theorem fetch_error_yields_empty_w :
    ([FetchEvent.err].any FetchEvent.isErr = true) ∧
    fetch_headlines [FetchEvent.err] = ([], true) :=
  ⟨rfl, (fetch_error_yields_empty [FetchEvent.err] rfl).1⟩

/-- Helper: membership in the set after one `add`. -/
theorem mem_insertIfAbsent {x t : Chars} {seen : List Chars} :
    x ∈ insertIfAbsent seen t ↔ x ∈ seen ∨ x = t := by
  unfold insertIfAbsent
  split_ifs with h
  · exact ⟨Or.inl, fun hx => hx.elim id (fun hxt => hxt ▸ h)⟩
  · simp [List.mem_append]

/-- Helper: one `add` keeps the set duplicate-free. -/
theorem nodup_insertIfAbsent {t : Chars} {seen : List Chars} (h : seen.Nodup) :
    (insertIfAbsent seen t).Nodup := by
  unfold insertIfAbsent
  split_ifs with ht
  · exact h
  · exact List.nodup_append.mpr ⟨h, List.nodup_singleton t,
      fun x hx hxt => ht (List.mem_singleton.mp hxt ▸ hx)⟩

/-- Helper: an error-free stream runs the loop to completion, folding the
titles into the accumulator. -/
theorem fetchLoop_titles (titles : List Chars) :
    ∀ seen, fetchLoop seen (titles.map FetchEvent.title) =
      some (titles.foldl insertIfAbsent seen) := by
  induction titles with
  | nil => intro seen; rfl
  | cons t ts ih =>
    intro seen
    simp only [List.map_cons, fetchLoop, List.foldl_cons]
    exact ih (insertIfAbsent seen t)

/-- Helper: membership after folding all titles into the accumulator. -/
theorem mem_foldl_insertIfAbsent (titles : List Chars) :
    ∀ seen x, x ∈ titles.foldl insertIfAbsent seen ↔ x ∈ seen ∨ x ∈ titles := by
  induction titles with
  | nil => intro seen x; simp
  | cons t ts ih =>
    intro seen x
    rw [List.foldl_cons, ih, mem_insertIfAbsent]
    simp [or_assoc]

/-- Helper: folding titles into a duplicate-free accumulator keeps it
duplicate-free. -/
theorem nodup_foldl_insertIfAbsent (titles : List Chars) :
    ∀ seen, List.Nodup seen → (titles.foldl insertIfAbsent seen).Nodup := by
  induction titles with
  | nil => intro _ h; exact h
  | cons t ts ih =>
    intro seen h
    rw [List.foldl_cons]
    exact ih _ (nodup_insertIfAbsent h)

/-- Helper: in a duplicate-free list every member has count one. -/
theorem nodup_count_one {x : Chars} : ∀ {l : List Chars}, l.Nodup → x ∈ l → l.count x = 1 := by
  intro l
  induction l with
  | nil => intro _ hm; exact absurd hm (List.not_mem_nil x)
  | cons a l ih =>
    intro hn hm
    rcases List.mem_cons.mp hm with rfl | hx
    · rw [List.count_cons_self, List.count_eq_zero_of_not_mem (List.nodup_cons.mp hn).1]
    · have hne : x ≠ a := fun he => (List.nodup_cons.mp hn).1 (he ▸ hx)
      rw [List.count_cons_of_ne hne, ih (List.nodup_cons.mp hn).2 hx]

/-- C7: for every sequence of fetched titles, each distinct title occurs
exactly once in the fetch result — titles present in the input occur once,
others zero times (order unspecified). -/
theorem fetch_dedup_count (titles : List Chars) (t : Chars) :
    ((fetch_headlines (titles.map FetchEvent.title)).1).count t =
      if t ∈ titles then 1 else 0 := by
  have hres : (fetch_headlines (titles.map FetchEvent.title)).1 =
      titles.foldl insertIfAbsent [] := by
    unfold fetch_headlines
    rw [fetchLoop_titles]
  rw [hres]
  by_cases ht : t ∈ titles
  · rw [if_pos ht]
    exact nodup_count_one
      (nodup_foldl_insertIfAbsent titles [] List.nodup_nil)
      ((mem_foldl_insertIfAbsent titles [] t).mpr (Or.inr ht))
  · rw [if_neg ht]
    exact List.count_eq_zero.mpr
      (fun hmem => ht (((mem_foldl_insertIfAbsent titles [] t).mp hmem).resolve_left
        (List.not_mem_nil t)))

/-- C2: if the written backup file contains a line whose separator count is
not 5 (and the write itself succeeded), the save returns false, no upload
is attempted, the blob store is untouched, and the local file keeps the
content just written. -/
theorem validation_failure_aborts (env : SaveEnv) (st : BlobState) (df : List CsvRow)
    (hw : env.writeOk = true)
    (hv : (readLines (fileContent (cleanDf df))).any
      (fun l => !(countSep l == 5)) = true) :
    (save_to_blob env st df).1 = false ∧
    (save_to_blob env st df).2.1.uploadAttempts = st.uploadAttempts ∧
    (save_to_blob env st df).2.1.blob = st.blob ∧
    (save_to_blob env st df).2.1.localFile = some (fileContent (cleanDf df)) := by
  have hval : _validate_csv (fileContent (cleanDf df)) = false := by
    rcases List.any_eq_true.mp hv with ⟨l, hl, h5⟩
    unfold _validate_csv
    refine Bool.eq_false_iff.mpr (fun hall => ?_)
    have hct := List.all_eq_true.mp hall l hl
    simp only [Bool.not_eq_true', beq_eq_false_iff_ne, ne_eq] at h5
    exact h5 (by simpa using hct)
  simp [save_to_blob, trySave, hw, hval]

/-- Witness for C2 at the tricky record, whose written line has 6
separator sequences. -/
theorem validation_failure_aborts_w :
    envAll.writeOk = true ∧
    ((readLines (fileContent (cleanDf [trickyRow]))).any
      (fun l => !(countSep l == 5)) = true) ∧
    (save_to_blob envAll stInit [trickyRow]).1 = false :=
  ⟨rfl, by decide,
   (validation_failure_aborts envAll stInit [trickyRow] rfl (by decide)).1⟩

/-- C5: the save operation returns true exactly when every step of the
sequence succeeds, and every exception raised inside the try block is
converted to the boolean false — no exception escapes. -/
theorem save_catches_all_exceptions (env : SaveEnv) (st : BlobState) (df : List CsvRow) :
    ((save_to_blob env st df).1 = true ↔ allStepsOk env st df) ∧
    (∀ e st2 df2, trySave env st df = .error (e, st2, df2) →
      save_to_blob env st df = (false, st2, df2)) := by
  constructor
  · obtain ⟨w, c, cr, u⟩ := env
    cases hv : _validate_csv (fileContent (cleanDf df)) <;>
      cases hex : st.containerExists <;>
      cases w <;> cases c <;> cases cr <;> cases u <;>
      simp [save_to_blob, trySave, allStepsOk, hv, hex]
  · intro e st2 df2 h
    simp [save_to_blob, h]

/-- Witness for C5: an all-good environment over a state with an existing
container saves the empty table successfully. -/
theorem save_catches_all_exceptions_w :
    (save_to_blob envAll stJunk []).1 = true :=
  (save_catches_all_exceptions envAll stJunk []).1.mpr
    ⟨rfl, by decide, rfl, Or.inl rfl, rfl⟩

/-- C9: the filename is the constant "reddit_news.csv" in the fixed backup
directory with no timestamp; whenever the write step runs, the local file
afterwards holds exactly the newly written content whatever was there
before (overwrite, never append); and a successful save stores the blob
under the same fixed name with the new content, whatever blob existed
before. -/
theorem fixed_filename_overwrite :
    _generate_filename = "reddit_news.csv" ∧
    localPath = "reddit_data_backups/reddit_news.csv" ∧
    (∀ env st df, env.writeOk = true →
      (save_to_blob env st df).2.1.localFile = some (fileContent (cleanDf df))) ∧
    (∀ env st df, (save_to_blob env st df).1 = true →
      (save_to_blob env st df).2.1.blob =
        some (_generate_filename, fileContent (cleanDf df))) := by
  refine ⟨rfl, rfl, ?_, ?_⟩
  · intro env st df hw
    obtain ⟨w, c, cr, u⟩ := env
    have hw2 : w = true := hw
    subst hw2
    cases hv : _validate_csv (fileContent (cleanDf df)) <;>
      cases hex : st.containerExists <;>
      cases c <;> cases cr <;> cases u <;>
      simp [save_to_blob, trySave, hv, hex]
  · intro env st df hs
    cases h : trySave env st df with
    | error e =>
      have hfalse : (save_to_blob env st df).1 = false := by
        unfold save_to_blob
        rw [h]
      rw [hfalse] at hs
      exact absurd hs (by simp)
    | ok p =>
      have hsave : save_to_blob env st df = (true, p) := by
        unfold save_to_blob
        rw [h]
      rw [hsave]
      simp only [trySave] at h
      split_ifs at h with h1 h2 h3 h4 h5
      all_goals
        first
          | exact Except.noConfusion h
          | (rw [Except.ok.injEq] at h; rw [← h])

/-- Witness for C9: over a state holding stale artifacts, a fully
successful save of the empty table overwrites both of them. -/
theorem fixed_filename_overwrite_w :
    (save_to_blob envAll stJunk []).2.1.localFile = some (fileContent (cleanDf [])) ∧
    (save_to_blob envAll stJunk []).2.1.blob =
      some (_generate_filename, fileContent (cleanDf [])) :=
  ⟨fixed_filename_overwrite.2.2.1 envAll stJunk [] rfl,
   fixed_filename_overwrite.2.2.2 envAll stJunk [] (by decide)⟩

/-- Helper: doubling quotes doubles the quote count. -/
theorem count_doubleQuotes (s : Chars) :
    (doubleQuotes s).count '"' = 2 * s.count '"' := by
  induction s with
  | nil => rfl
  | cons c rest ih =>
    simp only [doubleQuotes]
    split_ifs with hc
    · subst hc
      rw [List.count_cons_self, List.count_cons_self, List.count_cons_self, ih]
      omega
    · rw [List.count_cons_of_ne (Ne.symm hc), List.count_cons_of_ne (Ne.symm hc), ih]

/-- Helper: replacing one non-quote character by another non-quote
character preserves the quote count. -/
theorem count_replaceChar (old new q : Char) (hq1 : q ≠ old) (hq2 : q ≠ new)
    (s : Chars) : (replaceChar old new s).count q = s.count q := by
  induction s with
  | nil => rfl
  | cons c rest ih =>
    simp only [replaceChar]
    split_ifs with hc
    · subst hc
      rw [List.count_cons_of_ne hq2, List.count_cons_of_ne hq1, ih]
    · rw [List.count_cons, List.count_cons, ih]

/-- Helper: dropping a prefix of characters that all satisfy `p` does not
change the count of a character that does not satisfy `p`. -/
theorem count_dropWhile (p : Char → Bool) (q : Char) (hq : p q = false)
    (s : Chars) : (s.dropWhile p).count q = s.count q := by
  induction s with
  | nil => rfl
  | cons c rest ih =>
    rw [List.dropWhile_cons]
    by_cases hc : p c = true
    · rw [if_pos hc, ih,
        List.count_cons_of_ne (fun he => by rw [← he, hq] at hc; exact absurd hc (by simp))]
    · rw [if_neg hc]

/-- Helper: cleaning a headline exactly doubles its quote count. -/
theorem count_clean_quotes (text : Chars) :
    (_clean_headline text).count '"' = 2 * text.count '"' := by
  unfold _clean_headline pyStrip
  rw [List.count_reverse, count_dropWhile isPySpace '"' (by decide),
    List.count_reverse, count_dropWhile isPySpace '"' (by decide),
    count_replaceChar '\r' ' ' '"' (by decide) (by decide),
    count_replaceChar '\n' ' ' '"' (by decide) (by decide),
    count_doubleQuotes]

/-- C10: the save operation hands back the caller's table with every
headline cleaned in place, whatever the outcome; a second save on the
returned table cleans the already-cleaned headlines again; and each
cleaning pass doubles the number of quote characters in a headline, so
the second pass doubles the already doubled quotes. -/
theorem save_mutates_table :
    (∀ env st df, (save_to_blob env st df).2.2 = cleanDf df) ∧
    (∀ env1 env2 st df,
      (save_to_blob env2 (save_to_blob env1 st df).2.1
        (save_to_blob env1 st df).2.2).2.2 = cleanDf (cleanDf df)) ∧
    (∀ text : Chars, (_clean_headline text).count '"' = 2 * text.count '"') := by
  have hmut : ∀ env st df, (save_to_blob env st df).2.2 = cleanDf df := by
    intro env st df
    obtain ⟨w, c, cr, u⟩ := env
    cases hv : _validate_csv (fileContent (cleanDf df)) <;>
      cases hex : st.containerExists <;>
      cases w <;> cases c <;> cases cr <;> cases u <;>
      simp [save_to_blob, trySave, hv, hex]
  exact ⟨hmut, fun env1 env2 st df => by rw [hmut, hmut], count_clean_quotes⟩

/-- C8: the scorer produces exactly one record per headline, each a pure
function of that headline alone (no shared state), with cells in the fixed
order headline, negative, neutral, positive, compound, label; and the
table passed on is the column selection followed by `dropna`, which keeps
precisely the rows without missing values. -/
theorem analyze_table_spec (sia : Chars → PolScores) (headlines : List Chars) :
    (mainFrame sia headlines).columns = required_columns ∧
    (mainFrame sia headlines).rows =
      (headlines.map (recordRow sia)).filter (fun r => !rowHasNA r) ∧
    (∀ h, recordRow sia h =
      [Cell.str h, Cell.num (sia h).neg, Cell.num (sia h).neu,
       Cell.num (sia h).pos, Cell.num (sia h).compound,
       Cell.str (String.data (_categorize_sentiment (sia h).compound))]) ∧
    (∀ df r, r ∈ (dropna df).rows ↔ (r ∈ df.rows ∧ rowHasNA r = false)) := by
  refine ⟨rfl, ?_, fun h => rfl, ?_⟩
  · unfold mainFrame dropna selectColumns analyze_sentiment
    simp only [List.map_map]
    rfl
  · intro df r
    simp [dropna, List.mem_filter, Bool.not_eq_true']

end RedditNews
